import Mathlib

/-!
Verification of the drum-machine synthesis engine (src/services/drumEngine.ts).

The engine's numeric behaviour is embedded shallowly over the reals: the
waveshaper curve builder, the effects-chain update, the noise buffer
generator, and the four voice trigger algorithms become Lean functions, and
the side-effecting Web Audio calls (node creation, start/stop scheduling,
parameter automation) become explicit records of what the code schedules.
-/

noncomputable section

namespace DrumEngine

/-- Resolution of the waveshaper lookup table: the local constant
`samples = 44100` in `makeRatCurve`. -/
def curveSamples : ℕ := 44100

/-- Entry `i` of the RAT-style asymmetric clipping curve, following the loop
body of `makeRatCurve`: with `k = amount * 50 + 1` and `x = (i*2)/samples - 1`,
nonnegative `x` maps to `Math.tanh(x*k*1.2) * 0.9` (harder positive clip) and
negative `x` maps to `Math.tanh(x*k*0.8)` (softer negative clip). -/
def ratCurveAt (amount : ℝ) (i : ℕ) : ℝ :=
  let k : ℝ := amount * 50 + 1
  let x : ℝ := ((i : ℝ) * 2) / (curveSamples : ℝ) - 1
  if 0 ≤ x then Real.tanh (x * k * 1.2) * 0.9 else Real.tanh (x * k * 0.8)

/-- Waveshaper curve built by `makeRatCurve(amount)`: the full table of
`curveSamples` entries, in index order. -/
def makeRatCurve (amount : ℝ) : List ℝ :=
  (List.range curveSamples).map (ratCurveAt amount)

/-- Waveshaper curve entry as the specification words it (section 4.2):
`k = driveAmount*50 + 1`, `x = 2*i/N - 1` with `N = 44100`,
`y = tanh(x*k*1.2) * 0.9` for `x ≥ 0` and `y = tanh(x*k*0.8)` for `x < 0`.
Stated from the spec text, to be compared with `makeRatCurve`. -/
def ratCurveSpecAt (driveAmount : ℝ) (i : ℕ) : ℝ :=
  let k : ℝ := driveAmount * 50 + 1
  let x : ℝ := 2 * (i : ℝ) / 44100 - 1
  if 0 ≤ x then Real.tanh (x * k * 1.2) * 0.9 else Real.tanh (x * k * 0.8)

/-- Hyperbolic tangent written with the exponential at the doubled argument,
the form used for all the curve estimates below. -/
lemma tanh_exp_form (x : ℝ) :
    Real.tanh x = (Real.exp x * Real.exp x - 1) / (Real.exp x * Real.exp x + 1) := by
  have hx : 0 < Real.exp x := Real.exp_pos x
  rw [Real.tanh_eq_sinh_div_cosh, Real.sinh_eq, Real.cosh_eq, Real.exp_neg]
  have h1 : Real.exp x + (Real.exp x)⁻¹ ≠ 0 := by positivity
  have h2 : Real.exp x * Real.exp x + 1 ≠ 0 := by positivity
  field_simp

/-- Hyperbolic tangent stays strictly below one. -/
lemma tanh_lt_one_real (x : ℝ) : Real.tanh x < 1 := by
  rw [tanh_exp_form]
  have h : (0 : ℝ) < Real.exp x * Real.exp x + 1 := by positivity
  rw [div_lt_one h]
  linarith

/-- Hyperbolic tangent is positive on positive inputs. -/
lemma tanh_pos_of_pos {x : ℝ} (hx : 0 < x) : 0 < Real.tanh x := by
  rw [tanh_exp_form]
  have h1 : 1 < Real.exp x := Real.one_lt_exp_iff.mpr hx
  have h : (0 : ℝ) < Real.exp x * Real.exp x + 1 := by positivity
  exact div_pos (by nlinarith) h

/-- Hyperbolic tangent is negative on negative inputs. -/
lemma tanh_neg_of_neg {x : ℝ} (hx : x < 0) : Real.tanh x < 0 := by
  have h := tanh_pos_of_pos (neg_pos.mpr hx)
  rw [Real.tanh_neg] at h
  linarith

/-- Hyperbolic tangent is monotone. -/
lemma tanh_le_tanh_of_le {a b : ℝ} (hab : a ≤ b) : Real.tanh a ≤ Real.tanh b := by
  rw [tanh_exp_form, tanh_exp_form]
  have ha : 0 < Real.exp a := Real.exp_pos a
  have hb : 0 < Real.exp b := Real.exp_pos b
  have hab' : Real.exp a ≤ Real.exp b := Real.exp_le_exp.mpr hab
  rw [div_le_div_iff₀ (by positivity) (by positivity)]
  nlinarith

/-- Hyperbolic tangent exceeds 0.9 once the squared exponential passes 19. -/
lemma tanh_gt_of_exp_sq {x : ℝ} (h : 19 < Real.exp x * Real.exp x) :
    0.9 < Real.tanh x := by
  rw [tanh_exp_form]
  have hp : (0 : ℝ) < Real.exp x * Real.exp x + 1 := by positivity
  rw [lt_div_iff₀ hp]
  linarith

/-- Concrete bound used against the negative branch at x = -1/2, k = 51. -/
lemma exp_sq_at_204 : (19 : ℝ) < Real.exp 20.4 * Real.exp 20.4 := by
  have h2 : Real.exp 20.4 * Real.exp 20.4 = Real.exp 40.8 := by
    rw [← Real.exp_add]; norm_num
  have h := Real.add_one_le_exp (40.8 : ℝ)
  rw [h2]
  linarith

/-- Positive-branch evaluation of a curve entry. -/
lemma ratCurveAt_pos (amount : ℝ) (i : ℕ)
    (hx : 0 ≤ ((i : ℝ) * 2) / (curveSamples : ℝ) - 1) :
    ratCurveAt amount i =
      Real.tanh ((((i : ℝ) * 2) / (curveSamples : ℝ) - 1) * (amount * 50 + 1) * 1.2) * 0.9 := by
  simp only [ratCurveAt]
  rw [if_pos hx]

/-- Negative-branch evaluation of a curve entry. -/
lemma ratCurveAt_neg (amount : ℝ) (i : ℕ)
    (hx : ¬ 0 ≤ ((i : ℝ) * 2) / (curveSamples : ℝ) - 1) :
    ratCurveAt amount i =
      Real.tanh ((((i : ℝ) * 2) / (curveSamples : ℝ) - 1) * (amount * 50 + 1) * 0.8) := by
  simp only [ratCurveAt]
  rw [if_neg hx]

/-- C1 counterexample: the claim "at every pair of table inputs of equal
magnitude the positive branch clips harder, with |y(x)| ≥ |y(-x)| for every
x > 0" fails at distortion 1 (k = 51) at table index 33075, whose input is
x = 2*33075/44100 - 1 = 1/2 with equal-magnitude partner index
44100 - 33075 = 11025 (input -1/2): the positive branch saturates below 0.9
while the negative branch exceeds 0.9 in magnitude. -/
theorem C1_magnitude_counterexample :
    |ratCurveAt 1 33075| < |ratCurveAt 1 (44100 - 33075)| := by
  have hn : (44100 - 33075 : ℕ) = 11025 := by norm_num
  have e1 : ratCurveAt 1 33075 = Real.tanh 30.6 * 0.9 := by
    rw [ratCurveAt_pos 1 33075 (by norm_num [curveSamples])]
    norm_num [curveSamples]
  have e2 : ratCurveAt 1 11025 = Real.tanh (-(20.4)) := by
    rw [ratCurveAt_neg 1 11025 (by norm_num [curveSamples])]
    norm_num [curveSamples]
  have h1 : 0 < Real.tanh 30.6 := tanh_pos_of_pos (by norm_num)
  have h2 : Real.tanh 30.6 < 1 := tanh_lt_one_real _
  have h3 : 0.9 < Real.tanh 20.4 := tanh_gt_of_exp_sq exp_sq_at_204
  rw [hn, e1, e2, Real.tanh_neg, abs_neg]
  rw [abs_of_pos (by nlinarith), abs_of_pos (by linarith)]
  nlinarith

/-- C1 (amended): for the curve built at distortion 1 (k = 51), at every pair
of table inputs of equal magnitude the two branches differ (y(x) ≠ y(-x) for
every x ≠ 0, the branches even having opposite signs), and for x > 0 the
positive branch dominates up to its 0.9 output scaling:
|y(x)| ≥ 0.9 * |y(-x)|.  The unscaled full inequality |y(x)| ≥ |y(-x)| is
refuted by C1_magnitude_counterexample. -/
theorem C1_asymmetry_amended (i : ℕ) (h0 : 0 < i) (h1 : i < 44100)
    (hne : i ≠ 22050) :
    ratCurveAt 1 i ≠ ratCurveAt 1 (44100 - i) ∧
    (22050 < i → 0.9 * |ratCurveAt 1 (44100 - i)| ≤ |ratCurveAt 1 i|) := by
  have hcs : ((curveSamples : ℕ) : ℝ) = 44100 := by norm_num [curveSamples]
  have hj : (((44100 - i : ℕ) : ℝ)) = 44100 - (i : ℝ) := by
    rw [Nat.cast_sub h1.le]; norm_num
  have hxj : (((44100 - i : ℕ) : ℝ) * 2) / ((curveSamples : ℕ) : ℝ) - 1 =
      -(((i : ℝ) * 2) / ((curveSamples : ℕ) : ℝ) - 1) := by
    rw [hj, hcs]; ring
  rcases hne.lt_or_lt with hlt | hgt
  · -- table input is negative, partner input is positive
    have hi : (i : ℝ) < 22050 := by exact_mod_cast hlt
    have hxi : ((i : ℝ) * 2) / ((curveSamples : ℕ) : ℝ) - 1 < 0 := by
      rw [hcs, sub_neg, div_lt_one (by norm_num : (0:ℝ) < 44100)]
      linarith
    have hxjp : ¬ ((((44100 - i : ℕ) : ℝ) * 2) / ((curveSamples : ℕ) : ℝ) - 1 < 0) := by
      rw [hxj]; linarith
    have ei : ratCurveAt 1 i =
        Real.tanh ((((i : ℝ) * 2) / ((curveSamples : ℕ) : ℝ) - 1) * 51 * 0.8) := by
      rw [ratCurveAt_neg 1 i (by linarith)]
      norm_num
    have ej : ratCurveAt 1 (44100 - i) =
        Real.tanh ((-(((i : ℝ) * 2) / ((curveSamples : ℕ) : ℝ) - 1)) * 51 * 1.2) * 0.9 := by
      rw [ratCurveAt_pos 1 (44100 - i) (by rw [hxj]; linarith), hxj]
      norm_num
    have hyi : ratCurveAt 1 i < 0 := by
      rw [ei]; exact tanh_neg_of_neg (by nlinarith)
    have hyj : 0 < ratCurveAt 1 (44100 - i) := by
      rw [ej]
      have := tanh_pos_of_pos (show (0:ℝ) <
        (-(((i : ℝ) * 2) / ((curveSamples : ℕ) : ℝ) - 1)) * 51 * 1.2 by nlinarith)
      nlinarith
    refine ⟨ne_of_lt (lt_trans hyi hyj), fun h22 => absurd h22 (by omega)⟩
  · -- table input is positive, partner input is negative
    have hi : (22050 : ℝ) < (i : ℝ) := by exact_mod_cast hgt
    have hxi : 0 < ((i : ℝ) * 2) / ((curveSamples : ℕ) : ℝ) - 1 := by
      rw [hcs, sub_pos, lt_div_iff₀ (by norm_num : (0:ℝ) < 44100)]
      linarith
    have ei : ratCurveAt 1 i =
        Real.tanh ((((i : ℝ) * 2) / ((curveSamples : ℕ) : ℝ) - 1) * 51 * 1.2) * 0.9 := by
      rw [ratCurveAt_pos 1 i hxi.le]
      norm_num
    have ej : ratCurveAt 1 (44100 - i) =
        Real.tanh ((-(((i : ℝ) * 2) / ((curveSamples : ℕ) : ℝ) - 1)) * 51 * 0.8) := by
      rw [ratCurveAt_neg 1 (44100 - i) (by rw [hxj]; nlinarith), hxj]
      norm_num
    have hyi : 0 < ratCurveAt 1 i := by
      rw [ei]
      have := tanh_pos_of_pos (show (0:ℝ) <
        (((i : ℝ) * 2) / ((curveSamples : ℕ) : ℝ) - 1) * 51 * 1.2 by nlinarith)
      nlinarith
    have hyj : ratCurveAt 1 (44100 - i) < 0 := by
      rw [ej]; exact tanh_neg_of_neg (by nlinarith)
    refine ⟨(ne_of_lt (lt_trans hyj hyi)).symm, fun _ => ?_⟩
    have habsj : |ratCurveAt 1 (44100 - i)| =
        Real.tanh ((((i : ℝ) * 2) / ((curveSamples : ℕ) : ℝ) - 1) * 51 * 0.8) := by
      rw [abs_of_neg hyj, ej]
      rw [show (-(((i : ℝ) * 2) / ((curveSamples : ℕ) : ℝ) - 1)) * 51 * 0.8 =
        -(((((i : ℝ) * 2) / ((curveSamples : ℕ) : ℝ) - 1)) * 51 * 0.8) by ring]
      rw [Real.tanh_neg, neg_neg]
    have habsi : |ratCurveAt 1 i| =
        Real.tanh ((((i : ℝ) * 2) / ((curveSamples : ℕ) : ℝ) - 1) * 51 * 1.2) * 0.9 := by
      rw [abs_of_pos hyi, ei]
    rw [habsj, habsi]
    have hmono := tanh_le_tanh_of_le (show
      (((i : ℝ) * 2) / ((curveSamples : ℕ) : ℝ) - 1) * 51 * 0.8 ≤
      (((i : ℝ) * 2) / ((curveSamples : ℕ) : ℝ) - 1) * 51 * 1.2 by nlinarith)
    linarith

/-- Witness for C1_asymmetry_amended at table index 33076. -/
theorem C1_asymmetry_witness :
    0 < 33076 ∧ 33076 < 44100 ∧ 33076 ≠ 22050 ∧
    (ratCurveAt 1 33076 ≠ ratCurveAt 1 (44100 - 33076) ∧
     (22050 < 33076 → 0.9 * |ratCurveAt 1 (44100 - 33076)| ≤ |ratCurveAt 1 33076|)) :=
  ⟨by norm_num, by norm_num, by norm_num,
   C1_asymmetry_amended 33076 (by norm_num) (by norm_num) (by norm_num)⟩

/-- C4: for every driveAmount in [0,1] the curve built by makeRatCurve has
exactly 44100 entries and its entries are exactly those the specification
prescribes (ratCurveSpecAt, with coefficients 1.2, 0.9 and 0.8). -/
theorem C4_curve_matches_spec (driveAmount : ℝ) (h0 : 0 ≤ driveAmount)
    (h1 : driveAmount ≤ 1) :
    (makeRatCurve driveAmount).length = 44100 ∧
    makeRatCurve driveAmount = (List.range 44100).map (ratCurveSpecAt driveAmount) := by
  constructor
  · simp [makeRatCurve, curveSamples]
  · unfold makeRatCurve
    rw [show curveSamples = 44100 from rfl]
    apply List.map_congr_left
    intro i hi
    have hx : ((i : ℝ) * 2) / ((curveSamples : ℕ) : ℝ) = 2 * (i : ℝ) / 44100 := by
      simp only [curveSamples, Nat.cast_ofNat]
      ring
    simp only [ratCurveAt, ratCurveSpecAt]
    rw [hx]

/-- Witness for C4_curve_matches_spec at driveAmount 0. -/
theorem C4_curve_witness :
    (0 : ℝ) ≤ 0 ∧ (0 : ℝ) ≤ 1 ∧
    ((makeRatCurve 0).length = 44100 ∧
     makeRatCurve 0 = (List.range 44100).map (ratCurveSpecAt 0)) :=
  ⟨le_refl 0, by norm_num, C4_curve_matches_spec 0 (le_refl 0) (by norm_num)⟩

/-- Filter cutoff computed inside updateRat for a given filter parameter:
the local constants minFreq = 200 and maxFreq = 20000 and the expression
minFreq * Math.pow(maxFreq / minFreq, filter). -/
def ratFilterFreq (filterParam : ℝ) : ℝ :=
  let minFreq : ℝ := 200
  let maxFreq : ℝ := 20000
  minFreq * (maxFreq / minFreq) ^ filterParam

/-- C5: the effects-chain cutoff equals 200 * (20000/200)^filter, is strictly
increasing in the filter parameter over [0,1], and hits 200 Hz at filter = 0
and 20000 Hz at filter = 1. -/
theorem C5_filter_cutoff :
    (∀ f : ℝ, ratFilterFreq f = 200 * ((20000 : ℝ) / 200) ^ f) ∧
    (∀ a b : ℝ, 0 ≤ a → a < b → b ≤ 1 → ratFilterFreq a < ratFilterFreq b) ∧
    ratFilterFreq 0 = 200 ∧ ratFilterFreq 1 = 20000 := by
  have hbase : (20000 : ℝ) / 200 = 100 := by norm_num
  refine ⟨fun f => rfl, fun a b _ hab _ => ?_, ?_, ?_⟩
  · show (200 : ℝ) * ((20000 : ℝ) / 200) ^ a < 200 * ((20000 : ℝ) / 200) ^ b
    rw [hbase]
    have : (100 : ℝ) ^ a < (100 : ℝ) ^ b :=
      (Real.rpow_lt_rpow_left_iff (by norm_num : (1:ℝ) < 100)).mpr hab
    linarith
  · show (200 : ℝ) * ((20000 : ℝ) / 200) ^ (0 : ℝ) = 200
    rw [hbase, Real.rpow_zero]; norm_num
  · show (200 : ℝ) * ((20000 : ℝ) / 200) ^ (1 : ℝ) = 20000
    rw [hbase, Real.rpow_one]; norm_num

/-- Witness for C5_filter_cutoff: monotonicity instantiated at the endpoints
0 and 1. -/
theorem C5_filter_witness :
    (0 : ℝ) ≤ 0 ∧ (0 : ℝ) < 1 ∧ (1 : ℝ) ≤ 1 ∧
    ratFilterFreq 0 < ratFilterFreq 1 :=
  ⟨le_refl 0, one_pos, le_refl 1,
   C5_filter_cutoff.2.1 0 1 (le_refl 0) one_pos (le_refl 1)⟩

/-- Noise buffer produced by createNoiseBuffer: length = ceil(sampleRate *
duration) samples, each Math.random() * 2 - 1, where rand i models the i-th
Math.random() draw (a value in [0,1)). -/
def createNoiseBuffer (rand : ℕ → ℝ) (sampleRate duration : ℝ) : List ℝ :=
  (List.range ⌈sampleRate * duration⌉₊).map (fun i => rand i * 2 - 1)

/-- C7: for every duration > 0 and every sample rate, the noise buffer has
length ceil(duration * sampleRate) and every sample lies in [-1, 1]. -/
theorem C7_noise_buffer (rand : ℕ → ℝ) (hrand : ∀ i, 0 ≤ rand i ∧ rand i < 1)
    (sampleRate duration : ℝ) (hd : 0 < duration) :
    (createNoiseBuffer rand sampleRate duration).length = ⌈duration * sampleRate⌉₊ ∧
    ∀ y ∈ createNoiseBuffer rand sampleRate duration, -1 ≤ y ∧ y ≤ 1 := by
  constructor
  · simp [createNoiseBuffer, mul_comm]
  · intro y hy
    simp only [createNoiseBuffer, List.mem_map, List.mem_range] at hy
    obtain ⟨i, _, rfl⟩ := hy
    obtain ⟨hl, hu⟩ := hrand i
    constructor <;> nlinarith

/-- Witness for C7_noise_buffer with the constant-zero random stream,
sample rate 2 and duration 1. -/
theorem C7_noise_witness :
    (∀ i : ℕ, 0 ≤ (0 : ℝ) ∧ (0 : ℝ) < 1) ∧ (0 : ℝ) < 1 ∧
    ((createNoiseBuffer (fun _ => 0) 2 1).length = ⌈(1 : ℝ) * 2⌉₊ ∧
     ∀ y ∈ createNoiseBuffer (fun _ => 0) 2 1, -1 ≤ y ∧ y ≤ 1) :=
  ⟨fun _ => ⟨le_refl 0, one_pos⟩, one_pos,
   C7_noise_buffer (fun _ => 0) (fun _ => ⟨le_refl 0, one_pos⟩) 2 1 one_pos⟩

/-- Per-voice configuration supplied at each trigger (interface
DrumVoiceConfig): volume, tune, decay and tone are documented on [0,1] and
velocity on [0,127]. -/
structure DrumVoiceConfig where
  volume : ℝ
  tune : ℝ
  decay : ℝ
  tone : ℝ
  velocity : ℝ

/-- Effects-chain parameters (interface RatConfig), each documented on
[0,1]. -/
structure RatConfig where
  distortion : ℝ
  filterKnob : ℝ
  volume : ℝ

/-- Partial RatConfig as accepted by updateRat: fields that are present
overwrite the stored value (Object.assign semantics). -/
structure RatPatch where
  distortion? : Option ℝ
  filterKnob? : Option ℝ
  volume? : Option ℝ

/-- Merge of a partial config into the stored one, as done by
Object.assign(this.ratConfig, config). -/
def mergeRat (c : RatConfig) (p : RatPatch) : RatConfig where
  distortion := p.distortion?.getD c.distortion
  filterKnob := p.filterKnob?.getD c.filterKnob
  volume := p.volume?.getD c.volume

/-- Empty partial config, the argument of the C8 idempotence claim. -/
def emptyPatch : RatPatch := ⟨none, none, none⟩

/-- Drum voice selector (type DrumType). -/
inductive DrumType where
  | KICK
  | SNARE
  | HAT
  | CLAP
deriving DecidableEq

/-- Kind of a Web Audio source node created by a voice. -/
inductive SourceKind where
  | osc
  | buffer
deriving DecidableEq

/-- One source node as a voice trigger creates it: its kind, the scheduled
start time, the scheduled stop time (none when the code never calls stop on
it), and for buffer sources the duration of the noise buffer it plays. -/
structure SourceNode where
  kind : SourceKind
  startTime : ℝ
  stopTime : Option ℝ
  bufferDuration : Option ℝ

/-- Destination the transient sub-graph is connected into: every voice layer
ends in gain.connect(this.ratInput). -/
inductive ChainInput where
  | ratInput
deriving DecidableEq

/-- Kick voice sub-graph as built by triggerKick: sub, body and click layers,
plus the optional noise-transient layer present only under kick-mod. -/
structure KickVoice where
  baseFreq : ℝ
  masterVol : ℝ
  subFreq : ℝ
  subNode : SourceNode
  bodyStartPitch : ℝ
  bodyEndPitch : ℝ
  bodyPitchTime : ℝ
  bodyNode : SourceNode
  clickFreqStart : ℝ
  clickNode : SourceNode
  noiseNode : Option SourceNode
  dest : ChainInput

/-- Kick trigger (triggerKick): vel = velocity/127, masterVol = volume*vel,
baseFreq = 35 + tune*20; sub oscillator stops at time+0.6, body at time+0.4,
click at time+0.05; under kick-mod the 20 ms noise burst is started with no
stop call. -/
def triggerKick (isModded : Bool) (time : ℝ) (config : DrumVoiceConfig) :
    KickVoice :=
  let vel := config.velocity / 127
  let masterVol := config.volume * vel
  let baseFreq := 35 + config.tune * 20
  { baseFreq := baseFreq
    masterVol := masterVol
    subFreq := baseFreq
    subNode := ⟨.osc, time, some (time + 0.6), none⟩
    bodyStartPitch := if isModded then 300 + config.tune * 100 else 180 + config.tune * 60
    bodyEndPitch := baseFreq
    bodyPitchTime := if isModded then 0.04 else 0.08
    bodyNode := ⟨.osc, time, some (time + 0.4), none⟩
    clickFreqStart := if isModded then 120 else 80
    clickNode := ⟨.osc, time, some (time + 0.05), none⟩
    noiseNode := if isModded then some ⟨.buffer, time, none, some 0.02⟩ else none
    dest := .ratInput }

/-- Source nodes of a kick voice, in creation order. -/
def KickVoice.sources (v : KickVoice) : List SourceNode :=
  [v.subNode, v.bodyNode, v.clickNode] ++ v.noiseNode.toList

/-- Snare voice sub-graph as built by triggerSnare. -/
structure SnareVoice where
  bodyFreq : ℝ
  masterVol : ℝ
  bodyLowFreq : ℝ
  bodyLowNode : SourceNode
  bodyHighStart : ℝ
  bodyHighEnd : ℝ
  bodyHighNode : SourceNode
  wiresLPFreq : ℝ
  wiresNode : SourceNode
  clickNode : SourceNode
  dest : ChainInput

/-- Snare trigger (triggerSnare): bodyFreq = 150 + tune*100; the two body
oscillators stop at time+0.2 and time+0.15, the wires noise source (0.3 s
buffer) stops at time+0.35, and the click noise source (0.01 s buffer) is
started with no stop call. -/
def triggerSnare (time : ℝ) (config : DrumVoiceConfig) : SnareVoice :=
  let vel := config.velocity / 127
  let masterVol := config.volume * vel
  let bodyFreq := 150 + config.tune * 100
  { bodyFreq := bodyFreq
    masterVol := masterVol
    bodyLowFreq := bodyFreq * 0.8
    bodyLowNode := ⟨.osc, time, some (time + 0.2), none⟩
    bodyHighStart := bodyFreq * 2
    bodyHighEnd := bodyFreq * 1.2
    bodyHighNode := ⟨.osc, time, some (time + 0.15), none⟩
    wiresLPFreq := 8000 + config.tune * 4000
    wiresNode := ⟨.buffer, time, some (time + 0.35), some 0.3⟩
    clickNode := ⟨.buffer, time, none, some 0.01⟩
    dest := .ratInput }

/-- Source nodes of a snare voice, in creation order. -/
def SnareVoice.sources (v : SnareVoice) : List SourceNode :=
  [v.bodyLowNode, v.bodyHighNode, v.wiresNode, v.clickNode]

/-- Non-harmonic frequency ratios of the hi-hat oscillator bank. -/
def hatRatios : List ℝ := [1.0, 1.34, 1.67, 1.91, 2.18, 2.41]

/-- Hi-hat voice sub-graph as built by triggerHiHat. -/
structure HatVoice where
  baseFreq : ℝ
  masterVol : ℝ
  oscFreqs : List ℝ
  oscDetunes : List ℝ
  oscNodes : List SourceNode
  bpFreq : ℝ
  decayTime : ℝ
  dest : ChainInput

/-- Hi-hat trigger (triggerHiHat): baseFreq = 300 + tune*400, six square
oscillators at hatRatios times baseFreq with random detune (rand i models
the i-th Math.random() draw), each stopped at time + 0.1 when closed and
time + 0.5 when open. -/
def triggerHiHat (rand : ℕ → ℝ) (time : ℝ) (config : DrumVoiceConfig)
    (isOpen : Bool) : HatVoice :=
  let vel := config.velocity / 127
  let masterVol := config.volume * vel
  let baseFreq := 300 + config.tune * 400
  { baseFreq := baseFreq
    masterVol := masterVol
    oscFreqs := hatRatios.map (fun r => baseFreq * r)
    oscDetunes := (List.range hatRatios.length).map (fun i => (rand i - 0.5) * 20)
    oscNodes := hatRatios.map
      (fun _ => ⟨.osc, time, some (time + (if isOpen then 0.5 else 0.1)), none⟩)
    bpFreq := 8000 + config.tune * 4000
    decayTime := if isOpen then 0.35 else 0.05
    dest := .ratInput }

/-- Source nodes of a hi-hat voice. -/
def HatVoice.sources (v : HatVoice) : List SourceNode :=
  v.oscNodes

/-- One clap burst as built by triggerClapBurst: a 0.02 s noise buffer source
started at the burst time with no stop call. -/
structure ClapBurst where
  burstTime : ℝ
  burstVol : ℝ
  bpFreq : ℝ
  node : SourceNode

/-- Clap burst constructor (triggerClapBurst). -/
def triggerClapBurst (time vol tune : ℝ) : ClapBurst where
  burstTime := time
  burstVol := vol
  bpFreq := 1200 + tune * 800
  node := ⟨.buffer, time, none, some 0.02⟩

/-- Clap reverb tail as built by triggerClapTail: a 0.25 s noise buffer source
stopped at its start time + 0.3. -/
structure ClapTail where
  tailTime : ℝ
  tailVol : ℝ
  bpFreq : ℝ
  node : SourceNode

/-- Clap tail constructor (triggerClapTail). -/
def triggerClapTail (time vol tune : ℝ) : ClapTail where
  tailTime := time
  tailVol := vol
  bpFreq := 1500 + tune * 1000
  node := ⟨.buffer, time, some (time + 0.3), some 0.25⟩

/-- Clap voice: four bursts 12 ms apart (the last one loudest) and one tail
40 ms after the trigger. -/
structure ClapVoice where
  masterVol : ℝ
  bursts : List ClapBurst
  tail : ClapTail
  dest : ChainInput

/-- Clap trigger (triggerClap): numBursts = 4, burstSpacing = 0.012,
burst volume masterVol*0.4 except the last at masterVol*0.8, and a tail at
time + 0.04 with volume masterVol*0.3. -/
def triggerClap (time : ℝ) (config : DrumVoiceConfig) : ClapVoice :=
  let vel := config.velocity / 127
  let masterVol := config.volume * vel
  let numBursts : ℕ := 4
  { masterVol := masterVol
    bursts := (List.range numBursts).map (fun i =>
      triggerClapBurst (time + (i : ℝ) * 0.012)
        (if i < numBursts - 1 then masterVol * 0.4 else masterVol * 0.8)
        config.tune)
    tail := triggerClapTail (time + 0.04) (masterVol * 0.3) config.tune
    dest := .ratInput }

/-- Source nodes of a clap voice: the four burst sources then the tail
source. -/
def ClapVoice.sources (v : ClapVoice) : List SourceNode :=
  v.bursts.map (fun b => b.node) ++ [v.tail.node]

/-- A triggered voice sub-graph of any drum type. -/
inductive Voice where
  | kick (v : KickVoice)
  | snare (v : SnareVoice)
  | hat (v : HatVoice)
  | clap (v : ClapVoice)

/-- Source nodes of a voice. -/
def Voice.sources : Voice → List SourceNode
  | .kick v => v.sources
  | .snare v => v.sources
  | .hat v => v.sources
  | .clap v => v.sources

/-- Destination of a voice sub-graph. -/
def Voice.dest : Voice → ChainInput
  | .kick v => v.dest
  | .snare v => v.dest
  | .hat v => v.dest
  | .clap v => v.dest

/-- Persistent engine state: the kick-mod flag, the stored RatConfig, and the
live parameters of the long-lived effects-chain nodes (pre-gain target,
waveshaper curve contents, filter cutoff target, post-gain target, master
gain target, and the fixed compressor settings). -/
structure EngineState where
  kickModEnabled : Bool
  ratConfig : RatConfig
  preGainTarget : ℝ
  curve : List ℝ
  filterFreqTarget : ℝ
  postGainTarget : ℝ
  masterGainTarget : ℝ
  compThreshold : ℝ
  compKnee : ℝ
  compRatioVal : ℝ
  compAttack : ℝ
  compRelease : ℝ

/-- Engine state right after construction: setupRatPedal sets pre-gain 1.0,
curve makeRatCurve(0.4), filter 8000 Hz and post-gain 0.8; setupCompressor
sets the fixed compressor constants; the stored RatConfig starts at
(0.4, 0.8, 0.8) and kick-mod is off. -/
def initialState : EngineState where
  kickModEnabled := false
  ratConfig := ⟨0.4, 0.8, 0.8⟩
  preGainTarget := 1.0
  curve := makeRatCurve 0.4
  filterFreqTarget := 8000
  postGainTarget := 0.8
  masterGainTarget := 1.0
  compThreshold := -12
  compKnee := 6
  compRatioVal := 4
  compAttack := 0.003
  compRelease := 0.15

/-- Distortion update (updateRat): merges the partial config, then retargets
pre-gain to 1 + distortion*10, rebuilds the waveshaper curve, retargets the
filter cutoff to the logarithmic sweep value and the post-gain to the stored
volume. -/
def updateRat (p : RatPatch) (s : EngineState) : EngineState :=
  let rc := mergeRat s.ratConfig p
  { s with
    ratConfig := rc
    preGainTarget := 1 + rc.distortion * 10
    curve := makeRatCurve rc.distortion
    filterFreqTarget := ratFilterFreq rc.filterKnob
    postGainTarget := rc.volume }

/-- One parameter change issued by updateRat, with the mechanism the code
uses: setTargetAtTime(value, now, timeConst) for the three AudioParams, and
a direct curve property assignment for the waveshaper. -/
inductive RatChange where
  | preGainTarget (v : ℝ) (timeConst : ℝ)
  | curveSwap (amount : ℝ)
  | filterFreqTarget (v : ℝ) (timeConst : ℝ)
  | postGainTarget (v : ℝ) (timeConst : ℝ)

/-- The list of parameter changes one updateRat call performs, in program
order. -/
def updateRatChanges (p : RatPatch) (s : EngineState) : List RatChange :=
  let rc := mergeRat s.ratConfig p
  [ .preGainTarget (1 + rc.distortion * 10) 0.05,
    .curveSwap rc.distortion,
    .filterFreqTarget (ratFilterFreq rc.filterKnob) 0.05,
    .postGainTarget rc.volume 0.05 ]

/-- A change counts as a smoothed ramp with the 50 ms time constant exactly
when it goes through setTargetAtTime with timeConst 0.05; the direct curve
assignment does not. -/
def RatChange.smoothedFiftyMs : RatChange → Prop
  | .preGainTarget _ tc => tc = 0.05
  | .curveSwap _ => False
  | .filterFreqTarget _ tc => tc = 0.05
  | .postGainTarget _ tc => tc = 0.05

/-- Engine facade dispatch (trigger): routes to the voice synthesizer for the
drum type, reading only the kick-mod flag from persistent state, and returns
the unchanged state together with the freshly built transient sub-graph. -/
def trigger (rand : ℕ → ℝ) (type : DrumType) (time : ℝ)
    (config : DrumVoiceConfig) (s : EngineState) : EngineState × Voice :=
  match type with
  | .KICK => (s, .kick (triggerKick s.kickModEnabled time config))
  | .SNARE => (s, .snare (triggerSnare time config))
  | .HAT => (s, .hat (triggerHiHat rand time config false))
  | .CLAP => (s, .clap (triggerClap time config))

/-- Modelled from the spec: clamping of a value to a closed interval, which
section 7 requires before use ("all numeric inputs must be clamped to their
documented domain before use").  drumEngine.ts contains no clamping at all,
so this function exists only on the specification side. -/
def clampTo (lo hi x : ℝ) : ℝ := max lo (min hi x)

/-- Modelled from the spec: a DrumVoiceConfig with every numeric field clamped
to its documented domain. -/
def clampConfig (c : DrumVoiceConfig) : DrumVoiceConfig where
  volume := clampTo 0 1 c.volume
  tune := clampTo 0 1 c.tune
  decay := clampTo 0 1 c.decay
  tone := clampTo 0 1 c.tone
  velocity := clampTo 0 127 c.velocity

/-- Out-of-range configuration: tune = -1.75 lies outside the documented
domain [0,1]. -/
def badConfig : DrumVoiceConfig := ⟨1, -1.75, 0.5, 0.5, 127⟩

/-- C2 (code bug): triggerKick consumes config.tune without any clamping.
At tune = -1.75 the body layer's exponentialRampToValueAtTime frequency
target (endPitch = baseFreq = 35 + tune*20) is exactly 0, and the Web Audio
specification makes exponentialRampToValueAtTime throw a RangeError on a
zero target, so this trigger call throws; clamping tune to [0,1] as the
specification demands would give the in-range target 35 Hz. -/
theorem C2_unclamped_ramp_target :
    (triggerKick false 0 badConfig).bodyEndPitch = 0 ∧
    (triggerKick false 0 (clampConfig badConfig)).bodyEndPitch = 35 ∧
    (triggerKick false 0 badConfig).bodyEndPitch ≠
      (triggerKick false 0 (clampConfig badConfig)).bodyEndPitch := by
  refine ⟨?_, ?_, ?_⟩ <;>
    norm_num [triggerKick, badConfig, clampConfig, clampTo, min_def, max_def]

/-- Source-node lifetime bound actually enforced by the code: oscillator
sources get an explicit stop a fixed positive offset after their start, and a
source with no stop call is a buffer source playing a noise buffer of fixed
positive duration. -/
def BoundedLifetime (n : SourceNode) : Prop :=
  (n.kind = .osc → ∃ off : ℝ, 0 < off ∧ n.stopTime = some (n.startTime + off)) ∧
  (n.stopTime = none → n.kind = .buffer ∧ ∃ d : ℝ, 0 < d ∧ n.bufferDuration = some d)

/-- Oscillator nodes with a scheduled stop satisfy the lifetime bound. -/
lemma boundedLifetime_osc (t c : ℝ) (hc : 0 < c) :
    BoundedLifetime ⟨.osc, t, some (t + c), none⟩ :=
  ⟨fun _ => ⟨c, hc, rfl⟩, fun h => by simp at h⟩

/-- Buffer nodes with a scheduled stop satisfy the lifetime bound. -/
lemma boundedLifetime_bufStop (t c d : ℝ) (hd : 0 < d) :
    BoundedLifetime ⟨.buffer, t, some (t + c), some d⟩ :=
  ⟨fun h => by simp at h, fun h => by simp at h⟩

/-- Unstopped buffer nodes with a finite buffer satisfy the lifetime bound. -/
lemma boundedLifetime_bufNoStop (t d : ℝ) (hd : 0 < d) :
    BoundedLifetime ⟨.buffer, t, none, some d⟩ :=
  ⟨fun h => by simp at h, fun _ => ⟨rfl, d, hd, rfl⟩⟩

/-- Default in-range configuration used for concrete evaluations. -/
def cfgDefault : DrumVoiceConfig := ⟨1, 0.5, 0.5, 0.5, 127⟩

/-- C3 counterexample: the snare's transient click buffer source is started
with no stop call at all (noise click layer of triggerSnare), so it is not
the case that every source node has an explicit stop scheduled at a fixed
offset after the trigger time. -/
theorem C3_no_stop_counterexample :
    ¬ (∀ n ∈ (triggerSnare 0 cfgDefault).sources, ∃ off : ℝ,
        n.stopTime = some ((0 : ℝ) + off)) := by
  intro h
  obtain ⟨off, hoff⟩ := h (triggerSnare 0 cfgDefault).clickNode
    (by simp [SnareVoice.sources])
  simp [triggerSnare] at hoff

/-- C3 (amended): every oscillator source created by any voice trigger has an
explicit stop scheduled at a fixed positive offset after its start, and every
source started without a stop call (the snare click, the clap bursts and the
kick-mod noise transient) is a buffer source whose assigned noise buffer has
a fixed positive duration, so its lifetime is still bounded. -/
theorem C3_sources_amended (rand : ℕ → ℝ) (type : DrumType) (time : ℝ)
    (config : DrumVoiceConfig) (s : EngineState) :
    ∀ n ∈ ((trigger rand type time config s).2).sources, BoundedLifetime n := by
  cases type
  case KICK =>
    intro n hn
    cases hb : s.kickModEnabled <;>
      simp [trigger, hb, Voice.sources, triggerKick, KickVoice.sources] at hn
    · rcases hn with rfl | rfl | rfl
      · exact boundedLifetime_osc time 0.6 (by norm_num)
      · exact boundedLifetime_osc time 0.4 (by norm_num)
      · exact boundedLifetime_osc time 0.05 (by norm_num)
    · rcases hn with rfl | rfl | rfl | rfl
      · exact boundedLifetime_osc time 0.6 (by norm_num)
      · exact boundedLifetime_osc time 0.4 (by norm_num)
      · exact boundedLifetime_osc time 0.05 (by norm_num)
      · exact boundedLifetime_bufNoStop time 0.02 (by norm_num)
  case SNARE =>
    intro n hn
    simp [trigger, Voice.sources, triggerSnare, SnareVoice.sources] at hn
    rcases hn with rfl | rfl | rfl | rfl
    · exact boundedLifetime_osc time 0.2 (by norm_num)
    · exact boundedLifetime_osc time 0.15 (by norm_num)
    · exact boundedLifetime_bufStop time 0.35 0.3 (by norm_num)
    · exact boundedLifetime_bufNoStop time 0.01 (by norm_num)
  case HAT =>
    intro n hn
    simp [trigger, Voice.sources, triggerHiHat, HatVoice.sources, hatRatios] at hn
    subst hn
    exact boundedLifetime_osc time 0.1 (by norm_num)
  case CLAP =>
    intro n hn
    simp [trigger, Voice.sources, triggerClap, ClapVoice.sources,
      triggerClapBurst, triggerClapTail,
      show List.range 4 = [0, 1, 2, 3] from rfl] at hn
    rcases hn with rfl | rfl | rfl | rfl | rfl
    · exact boundedLifetime_bufNoStop _ 0.02 (by norm_num)
    · exact boundedLifetime_bufNoStop _ 0.02 (by norm_num)
    · exact boundedLifetime_bufNoStop _ 0.02 (by norm_num)
    · exact boundedLifetime_bufNoStop _ 0.02 (by norm_num)
    · exact boundedLifetime_bufStop (time + 0.04) 0.3 0.25 (by norm_num)

/-- Witness for C3_sources_amended: the snare wires source of a concrete
trigger. -/
theorem C3_sources_witness :
    ((triggerSnare 0 cfgDefault).wiresNode ∈
      ((trigger (fun _ => 0) .SNARE 0 cfgDefault initialState).2).sources) ∧
    BoundedLifetime (triggerSnare 0 cfgDefault).wiresNode :=
  ⟨by simp [trigger, Voice.sources, SnareVoice.sources],
   C3_sources_amended (fun _ => 0) .SNARE 0 cfgDefault initialState
     (triggerSnare 0 cfgDefault).wiresNode
     (by simp [trigger, Voice.sources, SnareVoice.sources])⟩

/-- Kick-mod switch (setKickMod). -/
def setKickMod (enabled : Bool) (s : EngineState) : EngineState :=
  { s with kickModEnabled := enabled }

/-- C6: triggering KICK at time 0 with volume 1, tune 0.5, velocity 127 (any
decay and tone, which kicks ignore) from a state with kick-mod disabled
yields a sub layer at 45 Hz, a body sweep 210 Hz down to 45 Hz over 0.08 s
and no noise-transient layer; after setKickMod true the same trigger gains a
noise-transient layer and the body sweeps 350 Hz down to 45 Hz over 0.04 s. -/
theorem C6_kick_scenario (decay tone : ℝ) :
    (trigger (fun _ => 0) .KICK 0 ⟨1, 0.5, decay, tone, 127⟩ initialState).2 =
      .kick (triggerKick false 0 ⟨1, 0.5, decay, tone, 127⟩) ∧
    (trigger (fun _ => 0) .KICK 0 ⟨1, 0.5, decay, tone, 127⟩
        (setKickMod true initialState)).2 =
      .kick (triggerKick true 0 ⟨1, 0.5, decay, tone, 127⟩) ∧
    ((triggerKick false 0 ⟨1, 0.5, decay, tone, 127⟩).subFreq = 45 ∧
     (triggerKick false 0 ⟨1, 0.5, decay, tone, 127⟩).bodyStartPitch = 210 ∧
     (triggerKick false 0 ⟨1, 0.5, decay, tone, 127⟩).bodyEndPitch = 45 ∧
     (triggerKick false 0 ⟨1, 0.5, decay, tone, 127⟩).bodyPitchTime = 0.08 ∧
     (triggerKick false 0 ⟨1, 0.5, decay, tone, 127⟩).noiseNode = none) ∧
    ((triggerKick true 0 ⟨1, 0.5, decay, tone, 127⟩).noiseNode ≠ none ∧
     (triggerKick true 0 ⟨1, 0.5, decay, tone, 127⟩).bodyStartPitch = 350 ∧
     (triggerKick true 0 ⟨1, 0.5, decay, tone, 127⟩).bodyEndPitch = 45 ∧
     (triggerKick true 0 ⟨1, 0.5, decay, tone, 127⟩).bodyPitchTime = 0.04) := by
  refine ⟨rfl, rfl, ⟨?_, ?_, ?_, ?_, ?_⟩, ⟨?_, ?_, ?_, ?_⟩⟩ <;>
    norm_num [triggerKick] <;> simp

/-- C8 counterexample: from the freshly constructed engine state the empty
update does change a target parameter: it moves the pre-gain target from its
construction value 1.0 to 1 + 0.4*10 = 5, because updateRat always recomputes
every target from the stored RatConfig. -/
theorem C8_empty_update_counterexample :
    (updateRat emptyPatch initialState).preGainTarget ≠
      initialState.preGainTarget := by
  norm_num [updateRat, mergeRat, emptyPatch, initialState]

/-- C8 (amended): once any updateRat call has been applied, updating with the
empty partial config leaves the whole effects-chain state (stored config,
pre-gain target, curve, filter cutoff target, post-gain target) unchanged;
only from the freshly constructed state, whose node values were set directly
and do not yet reflect the stored RatConfig, does the empty update move the
targets. -/
theorem C8_idempotent_amended (p : RatPatch) (s : EngineState) :
    updateRat emptyPatch (updateRat p s) = updateRat p s := rfl

/-- C9 counterexample: the updateRat call performs the waveshaper curve
change as a direct property assignment, not as a smoothed ramp with the 50 ms
time constant, so not every parameter change it performs is smoothed. -/
theorem C9_instant_curve_counterexample :
    ¬ (∀ ch ∈ updateRatChanges emptyPatch initialState,
        ch.smoothedFiftyMs) := by
  intro h
  exact h (.curveSwap ((mergeRat initialState.ratConfig emptyPatch).distortion))
    (by simp [updateRatChanges])

/-- C9 (amended): every parameter change performed by updateRat is either a
smoothed setTargetAtTime ramp with the 50 ms time constant (pre-gain, filter
cutoff, post-gain) or the one instantaneous waveshaper curve replacement. -/
theorem C9_ramps_amended (p : RatPatch) (s : EngineState) :
    ∀ ch ∈ updateRatChanges p s,
      ch.smoothedFiftyMs ∨ ch = .curveSwap (mergeRat s.ratConfig p).distortion := by
  intro ch hch
  simp only [updateRatChanges] at hch
  fin_cases hch
  · exact Or.inl rfl
  · exact Or.inr rfl
  · exact Or.inl rfl
  · exact Or.inl rfl

/-- Witness for C9_ramps_amended: the pre-gain change of a concrete update is
covered. -/
theorem C9_ramps_witness :
    (RatChange.preGainTarget
        (1 + (mergeRat initialState.ratConfig emptyPatch).distortion * 10) 0.05 ∈
      updateRatChanges emptyPatch initialState) ∧
    ((RatChange.preGainTarget
        (1 + (mergeRat initialState.ratConfig emptyPatch).distortion * 10)
        0.05).smoothedFiftyMs ∨
      RatChange.preGainTarget
        (1 + (mergeRat initialState.ratConfig emptyPatch).distortion * 10) 0.05 =
        .curveSwap (mergeRat initialState.ratConfig emptyPatch).distortion) :=
  ⟨by simp [updateRatChanges],
   C9_ramps_amended emptyPatch initialState _ (by simp [updateRatChanges])⟩

/-- C10: a trigger call of any drum type leaves every piece of persistent
engine state untouched (stored RatConfig, kick-mod flag, pre-gain target,
waveshaper curve, filter cutoff target, post-gain target, compressor
settings, master gain), and the transient sub-graph it builds is connected
into the shared chain input. -/
theorem C10_trigger_frame (rand : ℕ → ℝ) (type : DrumType) (time : ℝ)
    (config : DrumVoiceConfig) (s : EngineState) :
    (trigger rand type time config s).1 = s ∧
    (trigger rand type time config s).1.ratConfig = s.ratConfig ∧
    (trigger rand type time config s).1.kickModEnabled = s.kickModEnabled ∧
    (trigger rand type time config s).1.preGainTarget = s.preGainTarget ∧
    (trigger rand type time config s).1.curve = s.curve ∧
    (trigger rand type time config s).1.filterFreqTarget = s.filterFreqTarget ∧
    (trigger rand type time config s).1.postGainTarget = s.postGainTarget ∧
    (trigger rand type time config s).1.compThreshold = s.compThreshold ∧
    (trigger rand type time config s).1.compRatioVal = s.compRatioVal ∧
    (trigger rand type time config s).1.masterGainTarget = s.masterGainTarget ∧
    ((trigger rand type time config s).2).dest = .ratInput := by
  cases type <;>
    exact ⟨rfl, rfl, rfl, rfl, rfl, rfl, rfl, rfl, rfl, rfl, rfl⟩

/-- Witness for C6_kick_scenario at decay = tone = 0.5. -/
theorem C6_scenario_witness :
    (triggerKick false 0 ⟨1, 0.5, 0.5, 0.5, 127⟩).subFreq = 45 :=
  (C6_kick_scenario 0.5 0.5).2.2.1.1

/-- Witness for C8_idempotent_amended at a concrete patch and the initial
state. -/
theorem C8_idempotent_witness :
    updateRat emptyPatch (updateRat ⟨some 0.7, none, none⟩ initialState) =
      updateRat ⟨some 0.7, none, none⟩ initialState :=
  C8_idempotent_amended ⟨some 0.7, none, none⟩ initialState

/-- Witness for C10_trigger_frame at a concrete clap trigger. -/
theorem C10_trigger_witness :
    (trigger (fun _ => 0) .CLAP 0 cfgDefault initialState).1 = initialState :=
  (C10_trigger_frame (fun _ => 0) .CLAP 0 cfgDefault initialState).1

end DrumEngine
